import Mathlib

/-!
Shallow embedding of `src/main.py` (a Telegram chat bot relaying messages to a
generative backend and persisting per-chat history in a remote store).

The embedding covers:
  * the data model (updates, messages, entities, stored turns, inbox records);
  * `should_respond` (lines 53-69), including the exception raised when the
    group branch dereferences a missing message;
  * `handle_message` (lines 79-157), with every fallible external call
    (store initialization, inbox push, history read, the two history appends,
    the generation call, the reply send) resolved by an explicit environment
    oracle, and the remote store modelled as explicit state with a monotonic
    server clock assigning timestamps (the code writes the server-timestamp
    sentinel, so timestamps are server-assigned and non-decreasing);
  * the history query `order_by_child('timestamp').limit_to_last(10)`
    (line 117), modelled from the spec of the store collaborator as a stable
    insertion sort by timestamp followed by taking the last ten entries.

Python strings are modelled through their character lists: `strip`, `replace`,
substring containment and slicing are defined below as plain recursive
functions matching Python semantics.
-/

namespace HkBot

/-- Turn, the unit stored under a chat path: `{sender, text, timestamp}`
(main.py lines 137-141 and 144-148); the timestamp is server-assigned. -/
structure Turn where
  sender : String
  text : String
  timestamp : Nat
deriving Repr, DecidableEq

/-- InboxRecord, the unit pushed under `inbox_logs` (main.py lines 103-109). -/
structure InboxRecord where
  user_id : Nat
  chat_id : Int
  message_id : Nat
  text : String
  timestamp : Nat
deriving Repr, DecidableEq

/-- Store, the state of the remote database: the inbox audit log, the per-chat
turn lists keyed by `str(chat.id)`, and the server clock used to assign the
`.sv timestamp` values. -/
structure Store where
  inbox_logs : List InboxRecord
  chats : List (String × List Turn)
  now : Nat
deriving Repr, DecidableEq

/-- Entity, a structured annotation attached to a Telegram message; only its
type, offset and length are read (main.py lines 61-63). -/
structure Entity where
  etype : String
  offset : Nat
  length : Nat
deriving Repr, DecidableEq

/-- MessageData, the fields of `update.message` that `main.py` reads: the
optional text, the entity list, the author id of the replied-to message when
present, and the message id. -/
structure MessageData where
  text : Option String
  entities : List Entity
  reply_to_from_user_id : Option Nat
  message_id : Nat
deriving Repr, DecidableEq

/-- Update, the fields of a Telegram update that `main.py` reads: the chat
type and id, the sending user's id, and the optional message. -/
structure Update where
  chat_type : String
  chat_id : Int
  user_id : Nat
  message : Option MessageData
deriving Repr, DecidableEq

/-- CtxEntry, one element of the prompt context handed to the generation
backend: `{"role": role, "parts": [text]}` (main.py line 122). -/
structure CtxEntry where
  role : String
  parts : List String
deriving Repr, DecidableEq

/-- Env, the oracle resolving every fallible external call made during one
run of `handle_message`: whether the store handle was initialized at startup
(`firebase_ref` is not None), whether each store operation succeeds, the
outcome of the generation call, and whether sending the reply succeeds. -/
structure Env where
  firebase_init : Bool
  inbox_ok : Bool
  read_ok : Bool
  user_append_ok : Bool
  bot_append_ok : Bool
  gen_ok : Bool
  gen_text : String
  gen_err : String
  send_ok : Bool
deriving Repr, DecidableEq

/-- Result, the observable outcome of one run of `handle_message`: the final
store state, the texts successfully sent to the chat in order, the generation
calls made (prompt context paired with the submitted message text), whether
each kind of store access was attempted, and the error log entries written. -/
structure Result where
  store : Store
  sent : List String
  genCalls : List (List CtxEntry × String)
  inboxWriteAttempted : Bool
  historyReadAttempted : Bool
  historyWriteAttempted : Bool
  errorsLogged : List String
deriving Repr, DecidableEq

/-! ### Python string primitives -/

/-- Slice of a Python string by code points: `s[off : off+len]`
(main.py line 63). -/
def sliceChars (s : String) (off len : Nat) : String :=
  String.mk ((s.toList.drop off).take len)

/-- Character-list form of Python `str.strip()`: drop whitespace from both
ends. -/
def stripChars (s : List Char) : List Char :=
  ((s.dropWhile Char.isWhitespace).reverse.dropWhile Char.isWhitespace).reverse

/-- Python `str.strip()` (main.py lines 90 and 95). -/
def pyStrip (s : String) : String :=
  String.mk (stripChars s.toList)

/-- Character-list form of Python `str.replace`: replace every non-overlapping
occurrence of `pat` left to right. The recursion is structural on `fuel`,
which callers instantiate with the list's length; each step consumes at least
one character (a nonempty match consumes `pat.length` of them), so the
list is exhausted before the fuel is. -/
def replaceList (pat repl : List Char) : Nat → List Char → List Char
  | _, [] => []
  | 0, s => s
  | fuel + 1, c :: rest =>
    if pat.isPrefixOf (c :: rest) && !pat.isEmpty then
      repl ++ replaceList pat repl fuel (rest.drop (pat.length - 1))
    else
      c :: replaceList pat repl fuel rest

/-- Python `s.replace(pat, repl)` (main.py line 95). -/
def pyReplace (s pat repl : String) : String :=
  String.mk (replaceList pat.toList repl.toList s.toList.length s.toList)

/-- Character-list form of Python substring containment. -/
def containsList (pat : List Char) : List Char → Bool
  | [] => pat.isEmpty
  | c :: rest => pat.isPrefixOf (c :: rest) || containsList pat rest

/-- Python `pat in s` (main.py line 94). -/
def pyContains (s pat : String) : Bool :=
  containsList pat.toList s.toList

/-! ### Store operations -/

/-- Turn list stored under a chat key, empty when the key is absent. -/
def chatsGet : List (String × List Turn) → String → List Turn
  | [], _ => []
  | (k, ts) :: rest, key => if k = key then ts else chatsGet rest key

/-- Append a turn under a chat key, creating the key when absent (the store's
push-append under `chats/{chatId}`). -/
def chatsAppend (t : Turn) (key : String) :
    List (String × List Turn) → List (String × List Turn)
  | [] => [(key, [t])]
  | (k, ts) :: rest =>
    if k = key then (k, ts ++ [t]) :: rest else (k, ts) :: chatsAppend t key rest

/-- Turns currently stored under a chat key. -/
def getChat (s : Store) (key : String) : List Turn :=
  chatsGet s.chats key

/-- Successful `push().set(...)` under `inbox_logs` (main.py lines 102-109):
the record is appended with the server-assigned timestamp and the server clock
advances. -/
def pushInbox (s : Store) (uid : Nat) (cid : Int) (mid : Nat) (txt : String) :
    Store :=
  { s with
    inbox_logs := s.inbox_logs ++ [⟨uid, cid, mid, txt, s.now⟩],
    now := s.now + 1 }

/-- Successful `push().set(...)` under `chats/{key}` (main.py lines 136-141 and
143-148): the turn is appended with the server-assigned timestamp and the
server clock advances. -/
def pushTurn (s : Store) (key sender txt : String) : Store :=
  { s with
    chats := chatsAppend ⟨sender, txt, s.now⟩ key s.chats,
    now := s.now + 1 }

/-! ### Context assembly (main.py lines 113-124) -/

/-- Timestamp order on turns, the order of `order_by_child('timestamp')`. -/
def tsLE (a b : Turn) : Prop := a.timestamp ≤ b.timestamp

instance : DecidableRel tsLE := fun a b => Nat.decLe a.timestamp b.timestamp

instance : IsTotal Turn tsLE := ⟨fun a b => Nat.le_total a.timestamp b.timestamp⟩

instance : IsTrans Turn tsLE := ⟨fun _ _ _ => Nat.le_trans⟩

/-- Modelled from the spec of the store collaborator: the ordered query
`order_by_child('timestamp')` returns the chat's turns sorted by timestamp,
ties keeping insertion order (a stable insertion sort). -/
def sortTs (turns : List Turn) : List Turn :=
  List.insertionSort tsLE turns

/-- Window retrieved by `order_by_child('timestamp').limit_to_last(10)`
(main.py line 117): the last ten turns of the timestamp-sorted list. -/
def recentWindow (turns : List Turn) : List Turn :=
  let s := sortTs turns
  s.drop (s.length - 10)

/-- Role mapping of main.py line 121: sender `user` becomes role `user`, any
other sender becomes role `model`. -/
def roleOf (sender : String) : String :=
  if sender = "user" then "user" else "model"

/-- Prompt-context entry built from one stored turn (main.py lines 121-122). -/
def toCtxEntry (t : Turn) : CtxEntry :=
  { role := roleOf t.sender, parts := [t.text] }

/-- Context Assembler on a successfully read snapshot (main.py lines 117-122):
the last ten turns by timestamp, oldest first, each mapped to a role/parts
entry. An empty chat yields an empty context (the `if snapshot` guard skips
the loop). -/
def buildContext (turns : List Turn) : List CtxEntry :=
  (recentWindow turns).map toCtxEntry

/-! ### Responder gate (main.py lines 53-69) -/

/-- Mention scan of main.py lines 60-65: some entity of type `mention` whose
text slice equals `@botUsername`. -/
def mentionHit (text : String) (bot_username : String) (entities : List Entity) :
    Bool :=
  entities.any fun e =>
    e.etype == "mention" && sliceChars text e.offset e.length == "@" ++ bot_username

/-- Gate decision for an update that carries a message, given the message's
raw text (possibly absent), entities and replied-to author: the body of
`should_respond` once `update.message` is known to be present. -/
def gateOfMsg (chat_type : String) (text : String) (entities : List Entity)
    (reply_to_from_user_id : Option Nat) (bot_username : String) (bot_id : Nat) :
    Bool :=
  if chat_type = "private" then true
  else if chat_type = "group" ∨ chat_type = "supergroup" then
    mentionHit text bot_username entities ||
      (match reply_to_from_user_id with
       | some fid => fid == bot_id
       | none => false)
  else false

/-- Faithful `should_respond` (main.py lines 53-69) on a whole update.
The private branch returns before touching the message, so it succeeds even
with no message; the group branch dereferences `update.message.entities` and
slices `update.message.text`, so it raises (modelled as `Except.error`) when
the message is absent, or when the text is absent and a mention entity is
sliced. -/
def should_respond (u : Update) (bot_username : String) (bot_id : Nat) :
    Except Unit Bool :=
  if u.chat_type = "private" then .ok true
  else if u.chat_type = "group" ∨ u.chat_type = "supergroup" then
    match u.message with
    | none => .error ()
    | some msg =>
      if msg.text.isNone && msg.entities.any (fun e => e.etype == "mention") then
        .error ()
      else
        .ok (gateOfMsg u.chat_type (msg.text.getD "") msg.entities
              msg.reply_to_from_user_id bot_username bot_id)
  else .ok false

/-! ### Message handler (main.py lines 79-157) -/

/-- Fixed user-facing apology sent from the exception branch
(main.py line 157). -/
def apologyText : String :=
  "Извини, сейчас проблемы с подключением к нейросети. Попробуй позже."

/-- Result of a run that performs no external effect at all: the early
returns of main.py lines 82 and 86. -/
def emptyResult (s : Store) : Result :=
  { store := s, sent := [], genCalls := [],
    inboxWriteAttempted := false, historyReadAttempted := false,
    historyWriteAttempted := false, errorsLogged := [] }

/-- Text forwarded downstream (main.py lines 90-95): the stripped raw text,
with every occurrence of `@botUsername` removed and the result re-stripped
when the chat is not private and the mention substring occurs. -/
def forwardedText (chat_type raw bot_username : String) : String :=
  let t := pyStrip raw
  let mention := "@" ++ bot_username
  if chat_type ≠ "private" ∧ pyContains t mention = true then
    pyStrip (pyReplace t mention "")
  else t

/-- Embedding of `handle_message` (main.py lines 79-157). The update is
processed against the store state `store0`, with `env` resolving each
external call; `bot_username` is `context.bot.username` and `bot_id` is
`application.bot.id`. Each step mirrors the source:
  * lines 81-82: no message or falsy (absent or empty) text — return;
  * line 85: the gate (`should_respond`) — return when false;
  * lines 90-95: strip the text, remove the bot mention outside private chats;
  * lines 100-111: push an inbox record when the store handle exists; a
    failure is caught and logged;
  * lines 113-124: read the last ten turns and build the prompt context when
    the store handle exists; a failure is caught and logged, leaving the
    context empty;
  * lines 127-130: the generation call; on failure control jumps to the
    except branch, which logs and sends the fixed apology (lines 155-157);
  * lines 133-150: on generation success, append the user turn then the bot
    turn inside one try block, so a failing first append skips the second;
    the failure is caught and logged;
  * line 153: send the generated reply; if the send itself raises, the same
    except branch sends the apology (line 157); the apology send has no
    handler of its own and is modelled as delivered. -/
def handle_message (env : Env) (store0 : Store) (u : Update)
    (bot_username : String) (bot_id : Nat) : Result :=
  match u.message with
  | none => emptyResult store0
  | some msg =>
    match msg.text with
    | none => emptyResult store0
    | some rawText =>
      if rawText = "" then emptyResult store0
      else if !(gateOfMsg u.chat_type rawText msg.entities
                  msg.reply_to_from_user_id bot_username bot_id) then
        emptyResult store0
      else
        let message_text := forwardedText u.chat_type rawText bot_username
        let chatKey := toString u.chat_id
        let store1 :=
          if env.firebase_init && env.inbox_ok then
            pushInbox store0 u.user_id u.chat_id msg.message_id message_text
          else store0
        let logs1 :=
          if env.firebase_init && !env.inbox_ok then ["inbox_logs"] else []
        let history : List CtxEntry :=
          if env.firebase_init && env.read_ok then
            buildContext (getChat store1 chatKey)
          else []
        let logs2 :=
          logs1 ++ (if env.firebase_init && !env.read_ok then ["history_read"] else [])
        if env.gen_ok then
          let reply_text := env.gen_text
          let recorded :=
            if env.firebase_init then
              if env.user_append_ok then
                let sU := pushTurn store1 chatKey "user" message_text
                if env.bot_append_ok then (pushTurn sU chatKey "bot" reply_text, logs2)
                else (sU, logs2 ++ ["history_write"])
              else (store1, logs2 ++ ["history_write"])
            else (store1, logs2)
          { store := recorded.1,
            sent := if env.send_ok then [reply_text] else [apologyText],
            genCalls := [(history, message_text)],
            inboxWriteAttempted := env.firebase_init,
            historyReadAttempted := env.firebase_init,
            historyWriteAttempted := env.firebase_init,
            errorsLogged :=
              recorded.2 ++ (if env.send_ok then [] else ["gemini"]) }
        else
          { store := store1,
            sent := [apologyText],
            genCalls := [(history, message_text)],
            inboxWriteAttempted := env.firebase_init,
            historyReadAttempted := env.firebase_init,
            historyWriteAttempted := false,
            errorsLogged := logs2 ++ ["gemini"] }

/-! ### Store lemmas -/

theorem chatsGet_chatsAppend_self (t : Turn) (key : String) :
    ∀ cs : List (String × List Turn),
      chatsGet (chatsAppend t key cs) key = chatsGet cs key ++ [t]
  | [] => by simp [chatsAppend, chatsGet]
  | (k, ts) :: rest => by
    by_cases h : k = key
    · simp [chatsAppend, chatsGet, h]
    · simp [chatsAppend, chatsGet, h, chatsGet_chatsAppend_self t key rest]

theorem chatsGet_chatsAppend_other (t : Turn) (key k : String) (hk : k ≠ key) :
    ∀ cs : List (String × List Turn),
      chatsGet (chatsAppend t key cs) k = chatsGet cs k
  | [] => by simp [chatsAppend, chatsGet, Ne.symm hk]
  | (k', ts) :: rest => by
    by_cases h : k' = key
    · subst h
      simp [chatsAppend, chatsGet, Ne.symm hk]
    · simp only [chatsAppend, if_neg h]
      by_cases h' : k' = k
      · simp [chatsGet, h']
      · simp [chatsGet, h', chatsGet_chatsAppend_other t key k hk rest]

theorem getChat_pushTurn_self (s : Store) (key sender txt : String) :
    getChat (pushTurn s key sender txt) key =
      getChat s key ++ [⟨sender, txt, s.now⟩] := by
  simp [getChat, pushTurn, chatsGet_chatsAppend_self]

theorem getChat_pushTurn_other (s : Store) (key sender txt k : String)
    (hk : k ≠ key) :
    getChat (pushTurn s key sender txt) k = getChat s k := by
  simp [getChat, pushTurn, chatsGet_chatsAppend_other _ _ _ hk]

theorem chats_pushInbox (s : Store) (uid : Nat) (cid : Int) (mid : Nat)
    (txt : String) : (pushInbox s uid cid mid txt).chats = s.chats := rfl

theorem getChat_pushInbox (s : Store) (uid : Nat) (cid : Int) (mid : Nat)
    (txt : String) (k : String) :
    getChat (pushInbox s uid cid mid txt) k = getChat s k := rfl

/-! ### Context-assembly lemmas -/

theorem length_sortTs (turns : List Turn) :
    (sortTs turns).length = turns.length :=
  List.length_insertionSort tsLE turns

theorem sorted_sortTs (turns : List Turn) : List.Sorted tsLE (sortTs turns) :=
  List.sorted_insertionSort tsLE turns

theorem perm_sortTs (turns : List Turn) : List.Perm (sortTs turns) turns :=
  List.perm_insertionSort tsLE turns

theorem sorted_recentWindow (turns : List Turn) :
    List.Sorted tsLE (recentWindow turns) :=
  (sorted_sortTs turns).sublist (List.drop_sublist _ _)

theorem length_recentWindow_le (turns : List Turn) :
    (recentWindow turns).length ≤ 10 := by
  simp only [recentWindow, List.length_drop]
  omega

/-! ### Claim theorems -/

/-- C3: for every chat, the assembled context has at most 10 entries, the
entries come from a timestamp-sorted window (chronologically non-decreasing),
and when more than 10 turns exist the window is exactly the last 10 of the
timestamp-sorted permutation of the stored turns (the 10 most recent),
oldest-first: every dropped turn's timestamp is at most every retained
turn's timestamp. -/
theorem context_window_bounded_sorted_most_recent (turns : List Turn) :
    (buildContext turns).length ≤ 10 ∧
    buildContext turns = (recentWindow turns).map toCtxEntry ∧
    List.Sorted tsLE (recentWindow turns) ∧
    (10 < turns.length →
      (recentWindow turns).length = 10 ∧
      List.Perm (sortTs turns) turns ∧
      List.Sorted tsLE (sortTs turns) ∧
      (sortTs turns).take ((sortTs turns).length - 10) ++ recentWindow turns
        = sortTs turns ∧
      ∀ a ∈ (sortTs turns).take ((sortTs turns).length - 10),
        ∀ b ∈ recentWindow turns, a.timestamp ≤ b.timestamp) := by
  refine ⟨?_, rfl, sorted_recentWindow turns, fun h => ⟨?_, perm_sortTs turns,
    sorted_sortTs turns, List.take_append_drop _ _, ?_⟩⟩
  · simpa [buildContext] using length_recentWindow_le turns
  · have := length_sortTs turns
    simp only [recentWindow, List.length_drop]
    omega
  · have hp : List.Pairwise tsLE
        ((sortTs turns).take ((sortTs turns).length - 10) ++
          (sortTs turns).drop ((sortTs turns).length - 10)) := by
      rw [List.take_append_drop]
      exact sorted_sortTs turns
    exact fun a ha b hb => (List.pairwise_append.mp hp).2.2 a ha b hb

/-- Fixture: twelve stored turns with increasing timestamps. -/
def twelveTurns : List Turn :=
  (List.range 12).map fun n =>
    ⟨if n % 2 = 0 then "user" else "bot", toString n, n⟩

/-- Witness for C3: with 12 stored turns the hypothesis `10 < length` holds
and the window has exactly 10 entries. -/
theorem context_window_bounded_sorted_most_recent_witness :
    10 < twelveTurns.length ∧ (recentWindow twelveTurns).length = 10 :=
  ⟨by decide,
    ((context_window_bounded_sorted_most_recent twelveTurns).2.2.2 (by decide)).1⟩

/-- C5: the assembler maps each turn of the retrieved window to an entry whose
role is `user` when the sender is `user` and `model` for every other sender
value, carrying the turn's text as the single content part. -/
theorem context_role_of_sender :
    (∀ turns : List Turn, buildContext turns = (recentWindow turns).map toCtxEntry) ∧
    (∀ t : Turn, t.sender = "user" →
      toCtxEntry t = { role := "user", parts := [t.text] }) ∧
    (∀ t : Turn, t.sender ≠ "user" →
      toCtxEntry t = { role := "model", parts := [t.text] }) := by
  refine ⟨fun _ => rfl, fun t h => ?_, fun t h => ?_⟩ <;> simp [toCtxEntry, roleOf, h]

/-- Witness for C5: the mapping evaluated at a `user` sender, the `bot`
sender, and an unexpected third sender value. -/
theorem context_role_of_sender_witness :
    (Turn.sender ⟨"user", "hi", 0⟩ = "user" ∧
      toCtxEntry ⟨"user", "hi", 0⟩ = { role := "user", parts := ["hi"] }) ∧
    (Turn.sender ⟨"bot", "yo", 1⟩ ≠ "user" ∧
      toCtxEntry ⟨"bot", "yo", 1⟩ = { role := "model", parts := ["yo"] }) ∧
    (Turn.sender ⟨"weird", "z", 2⟩ ≠ "user" ∧
      toCtxEntry ⟨"weird", "z", 2⟩ = { role := "model", parts := ["z"] }) :=
  ⟨⟨rfl, context_role_of_sender.2.1 ⟨"user", "hi", 0⟩ rfl⟩,
    ⟨by decide, context_role_of_sender.2.2 ⟨"bot", "yo", 1⟩ (by decide)⟩,
    ⟨by decide, context_role_of_sender.2.2 ⟨"weird", "z", 2⟩ (by decide)⟩⟩

/-- Fixture: an update in a private chat carrying no message at all. -/
def updPrivateNoMessage : Update := ⟨"private", 0, 0, none⟩

/-- C6 counterexample: the claim demands `false` for a missing message body,
but for a private-chat update with no message `should_respond` returns
`true` (main.py line 56 returns before the message is inspected). -/
theorem gate_missing_message_counterexample :
    updPrivateNoMessage.message = none ∧
    updPrivateNoMessage.chat_type = "private" ∧
    should_respond updPrivateNoMessage "bot" 7 = Except.ok true ∧
    should_respond updPrivateNoMessage "bot" 7 ≠ Except.ok false := by
  refine ⟨rfl, rfl, rfl, fun h => ?_⟩
  exact absurd (Except.ok.inj (show Except.ok true = Except.ok false from h))
    (by decide)

/-- C6 amended: `should_respond` is a pure predicate returning `true` for
every private-chat update (message present or not); for a group or supergroup
update carrying a message with text it returns `true` iff the message has a
`mention` entity whose slice equals `@botUsername` or is a reply to a message
authored by the bot's id; for a group or supergroup update with no message it
raises instead of returning; and it returns `false` for any other chat
type. -/
theorem gate_amended (u : Update) (bu : String) (bid : Nat) :
    (u.chat_type = "private" → should_respond u bu bid = Except.ok true) ∧
    ((u.chat_type = "group" ∨ u.chat_type = "supergroup") → u.message = none →
      should_respond u bu bid = Except.error ()) ∧
    (∀ msg rawText, u.message = some msg → msg.text = some rawText →
      (u.chat_type = "group" ∨ u.chat_type = "supergroup") →
      ∃ b : Bool, should_respond u bu bid = Except.ok b ∧
        (b = true ↔
          (∃ e ∈ msg.entities, e.etype = "mention" ∧
            sliceChars rawText e.offset e.length = "@" ++ bu) ∨
          msg.reply_to_from_user_id = some bid)) ∧
    (u.chat_type ≠ "private" → u.chat_type ≠ "group" → u.chat_type ≠ "supergroup" →
      should_respond u bu bid = Except.ok false) := by
  refine ⟨fun h => ?_, fun hg hm => ?_, fun msg rawText hm ht hg => ?_,
    fun h1 h2 h3 => ?_⟩
  · simp [should_respond, h]
  · have hne : u.chat_type ≠ "private" := by
      rcases hg with h | h <;> simp [h]
    simp [should_respond, hne, hg, hm]
  · have hne : u.chat_type ≠ "private" := by
      rcases hg with h | h <;> simp [h]
    refine ⟨gateOfMsg u.chat_type rawText msg.entities msg.reply_to_from_user_id
      bu bid, ?_, ?_⟩
    · simp [should_respond, hne, hg, hm, ht]
    · simp only [gateOfMsg, if_neg hne, if_pos hg, Bool.or_eq_true,
        mentionHit, List.any_eq_true, Bool.and_eq_true, beq_iff_eq]
      constructor
      · rintro (⟨e, he, h1, h2⟩ | h)
        · exact Or.inl ⟨e, he, h1, h2⟩
        · cases hr : msg.reply_to_from_user_id with
          | none => rw [hr] at h; cases h
          | some fid =>
            rw [hr] at h
            simp only [beq_iff_eq] at h
            exact Or.inr (congrArg some h)
      · rintro (⟨e, he, h1, h2⟩ | h)
        · exact Or.inl ⟨e, he, h1, h2⟩
        · rw [h]
          simp
  · simp [should_respond, h1, h2, h3]

/-- Fixture: a group update with a `mention` entity addressed to the bot. -/
def updGroupMention : Update :=
  ⟨"group", 42, 7, some ⟨some "@bot hello there", [⟨"mention", 0, 4⟩], none, 1⟩⟩

/-- Witness for C6 amended: the four clauses instantiated at concrete
updates — a private chat with a message, a group chat with no message, a
group chat with a matching mention, and a channel. -/
theorem gate_amended_witness :
    should_respond ⟨"private", 1, 2, some ⟨some "hi", [], none, 3⟩⟩ "bot" 9
      = Except.ok true ∧
    should_respond ⟨"group", 1, 2, none⟩ "bot" 9 = Except.error () ∧
    (∃ b : Bool, should_respond updGroupMention "bot" 9 = Except.ok b) ∧
    should_respond ⟨"channel", 1, 2, none⟩ "bot" 9 = Except.ok false := by
  refine ⟨(gate_amended _ "bot" 9).1 rfl,
    (gate_amended _ "bot" 9).2.1 (Or.inl rfl) rfl, ?_,
    (gate_amended _ "bot" 9).2.2.2 (by decide) (by decide) (by decide)⟩
  obtain ⟨b, hb, -⟩ :=
    (gate_amended updGroupMention "bot" 9).2.2.1 _ _ rfl rfl (Or.inl rfl)
  exact ⟨b, hb⟩

/-- Generation failure: the handler sends exactly the fixed apology and the
chat histories are untouched (inbox logging happens before the failure and is
unaffected). Shared characterization used by the error-handling claims. -/
theorem gen_fail_sent_chats (env : Env) (store0 : Store) (u : Update)
    (bu : String) (bid : Nat) (msg : MessageData) (rawText : String)
    (hm : u.message = some msg) (ht : msg.text = some rawText)
    (hne : rawText ≠ "")
    (hg : gateOfMsg u.chat_type rawText msg.entities msg.reply_to_from_user_id
            bu bid = true)
    (hfail : env.gen_ok = false) :
    (handle_message env store0 u bu bid).sent = [apologyText] ∧
    (handle_message env store0 u bu bid).store.chats = store0.chats := by
  obtain ⟨ct, ci, ui, om⟩ := u
  simp only at hm hg
  subst hm
  obtain ⟨otx, ents, rto, mid⟩ := msg
  simp only at ht hg
  subst ht
  simp only [handle_message, if_neg hne, hg, Bool.not_true,
    Bool.false_eq_true, if_false, hfail, if_neg (by simp : ¬False)]
  constructor
  · trivial
  · split <;> simp [pushInbox]

/-- C2: on generation-backend failure the user receives exactly the one fixed
apology text and the History Store gains zero new Turns; the sent text is
moreover independent of the raw backend error, which therefore never reaches
the user. -/
theorem generation_failure_apology_no_turns (env : Env) (store0 : Store)
    (u : Update) (bu : String) (bid : Nat) (msg : MessageData)
    (rawText : String)
    (hm : u.message = some msg) (ht : msg.text = some rawText)
    (hne : rawText ≠ "")
    (hg : gateOfMsg u.chat_type rawText msg.entities msg.reply_to_from_user_id
            bu bid = true)
    (hfail : env.gen_ok = false) :
    (handle_message env store0 u bu bid).sent = [apologyText] ∧
    (handle_message env store0 u bu bid).store.chats = store0.chats ∧
    ∀ e : String,
      (handle_message { env with gen_err := e } store0 u bu bid).sent
        = [apologyText] := by
  obtain ⟨h1, h2⟩ := gen_fail_sent_chats env store0 u bu bid msg rawText
    hm ht hne hg hfail
  exact ⟨h1, h2, fun e =>
    (gen_fail_sent_chats { env with gen_err := e } store0 u bu bid msg rawText
      hm ht hne hg hfail).1⟩

/-- Fixture: the environment in which every external call succeeds and the
generation call returns a fixed reply. -/
def envHappy : Env := ⟨true, true, true, true, true, true, "reply!", "boom", true⟩

/-- Fixture: the empty store at server time zero. -/
def storeEmpty : Store := ⟨[], [], 0⟩

/-- Fixture: a private-chat text message. -/
def updPrivateHello : Update := ⟨"private", 42, 7, some ⟨some " hello ", [], none, 1⟩⟩

/-- Witness for C2: the generation call fails on a concrete private-chat
message; the apology is sent and the chat histories stay empty. -/
theorem generation_failure_apology_no_turns_witness :
    (handle_message { envHappy with gen_ok := false } storeEmpty updPrivateHello
        "bot" 9).sent = [apologyText] ∧
    (handle_message { envHappy with gen_ok := false } storeEmpty updPrivateHello
        "bot" 9).store.chats = storeEmpty.chats :=
  ⟨(generation_failure_apology_no_turns { envHappy with gen_ok := false }
      storeEmpty updPrivateHello "bot" 9 _ _ rfl rfl (by decide) (by decide) rfl).1,
   (generation_failure_apology_no_turns { envHappy with gen_ok := false }
      storeEmpty updPrivateHello "bot" 9 _ _ rfl rfl (by decide) (by decide) rfl).2.1⟩

/-- Appending the user turn then the bot turn under one chat key adds exactly
those two turns there, with consecutive server timestamps, and leaves every
other chat key untouched. -/
theorem getChat_double_push (s : Store) (key mt bt : String) :
    getChat (pushTurn (pushTurn s key "user" mt) key "bot" bt) key
      = getChat s key ++ [⟨"user", mt, s.now⟩, ⟨"bot", bt, s.now + 1⟩] ∧
    ∀ k, k ≠ key →
      getChat (pushTurn (pushTurn s key "user" mt) key "bot" bt) k
        = getChat s k := by
  constructor
  · rw [getChat_pushTurn_self, getChat_pushTurn_self]
    simp [pushTurn]
  · intro k hk
    rw [getChat_pushTurn_other _ _ _ _ _ hk, getChat_pushTurn_other _ _ _ _ _ hk]

/-- Fixture: the happy-path environment except that the first (user-turn)
history append fails. -/
def envUserAppendFails : Env := { envHappy with user_append_ok := false }

/-- C1 counterexample: a handled private-chat message whose generation call
succeeds and whose store handle is initialized, but whose first history
append fails: the reply is still sent, yet the chat path gains zero new
Turns rather than the two the claim demands. -/
theorem success_records_two_turns_counterexample :
    envUserAppendFails.gen_ok = true ∧
    envUserAppendFails.firebase_init = true ∧
    (handle_message envUserAppendFails storeEmpty updPrivateHello "bot" 9).sent
      = [envUserAppendFails.gen_text] ∧
    getChat (handle_message envUserAppendFails storeEmpty updPrivateHello
        "bot" 9).store (toString updPrivateHello.chat_id)
      = [] ∧
    (getChat (handle_message envUserAppendFails storeEmpty updPrivateHello
        "bot" 9).store (toString updPrivateHello.chat_id)).length
      ≠ (getChat storeEmpty (toString updPrivateHello.chat_id)).length + 2 := by
  decide

/-- When the gate passes, generation succeeds, the store handle exists and
both appends succeed, the chat path gains the user turn then the bot turn
with non-decreasing timestamps, and other chat paths stay unchanged (holds
for any send outcome). -/
theorem handle_success_getChat (env : Env) (store0 : Store)
    (u : Update) (bu : String) (bid : Nat) (msg : MessageData)
    (rawText : String)
    (hm : u.message = some msg) (ht : msg.text = some rawText)
    (hne : rawText ≠ "")
    (hg : gateOfMsg u.chat_type rawText msg.entities msg.reply_to_from_user_id
            bu bid = true)
    (hinit : env.firebase_init = true) (hgen : env.gen_ok = true)
    (hua : env.user_append_ok = true) (hba : env.bot_append_ok = true) :
    ∃ tsU tsB : Nat,
      getChat (handle_message env store0 u bu bid).store (toString u.chat_id)
        = getChat store0 (toString u.chat_id) ++
            [⟨"user", forwardedText u.chat_type rawText bu, tsU⟩,
             ⟨"bot", env.gen_text, tsB⟩] ∧
      tsU ≤ tsB ∧
      ∀ k, k ≠ toString u.chat_id →
        getChat (handle_message env store0 u bu bid).store k
          = getChat store0 k := by
  obtain ⟨ct, ci, ui, om⟩ := u
  simp only at hm hg
  subst hm
  obtain ⟨otx, ents, rto, mid⟩ := msg
  simp only at ht hg
  subst ht
  simp only [handle_message, if_neg hne, hg, Bool.not_true, Bool.false_eq_true,
    if_false, hinit, hgen, hua, hba, Bool.true_and, if_true]
  by_cases hio : env.inbox_ok
  · simp only [hio, if_true]
    refine ⟨store0.now + 1, store0.now + 2, ?_, by omega, ?_⟩
    · rw [(getChat_double_push _ _ _ _).1]
      simp [pushInbox, getChat, chatsGet]
    · intro k hk
      rw [(getChat_double_push _ _ _ _).2 k hk]
      rfl
  · simp only [hio, if_false]
    refine ⟨store0.now, store0.now + 1, ?_, by omega, ?_⟩
    · exact (getChat_double_push _ _ _ _).1
    · exact fun k hk => (getChat_double_push _ _ _ _).2 k hk

/-- C1 amended: for every handled message whose generation call succeeds,
whose store handle is initialized, and whose two history appends succeed, the
chat's path gains exactly two new Turns — first `user` with the forwarded
text, then `bot` with the generated reply — the bot Turn's timestamp is
greater than or equal to the user Turn's, and every other chat path is
unchanged. -/
theorem success_records_user_then_bot_turn (env : Env) (store0 : Store)
    (u : Update) (bu : String) (bid : Nat) (msg : MessageData)
    (rawText : String)
    (hm : u.message = some msg) (ht : msg.text = some rawText)
    (hne : rawText ≠ "")
    (hg : gateOfMsg u.chat_type rawText msg.entities msg.reply_to_from_user_id
            bu bid = true)
    (hinit : env.firebase_init = true) (hgen : env.gen_ok = true)
    (hua : env.user_append_ok = true) (hba : env.bot_append_ok = true) :
    ∃ tsU tsB : Nat,
      getChat (handle_message env store0 u bu bid).store (toString u.chat_id)
        = getChat store0 (toString u.chat_id) ++
            [⟨"user", forwardedText u.chat_type rawText bu, tsU⟩,
             ⟨"bot", env.gen_text, tsB⟩] ∧
      tsU ≤ tsB ∧
      ∀ k, k ≠ toString u.chat_id →
        getChat (handle_message env store0 u bu bid).store k
          = getChat store0 k :=
  handle_success_getChat env store0 u bu bid msg rawText hm ht hne hg
    hinit hgen hua hba

/-- Witness for C1 amended: the happy-path environment on a concrete
private-chat message; the chat path gains the user turn then the bot
turn. -/
theorem success_records_user_then_bot_turn_witness :
    ∃ tsU tsB : Nat,
      getChat (handle_message envHappy storeEmpty updPrivateHello "bot" 9).store
          (toString updPrivateHello.chat_id)
        = getChat storeEmpty (toString updPrivateHello.chat_id) ++
            [⟨"user", forwardedText updPrivateHello.chat_type " hello " "bot", tsU⟩,
             ⟨"bot", envHappy.gen_text, tsB⟩] ∧
      tsU ≤ tsB ∧
      ∀ k, k ≠ toString updPrivateHello.chat_id →
        getChat (handle_message envHappy storeEmpty updPrivateHello "bot" 9).store k
          = getChat storeEmpty k :=
  success_records_user_then_bot_turn envHappy storeEmpty updPrivateHello
    "bot" 9 _ _ rfl rfl (by decide) (by decide) rfl rfl rfl rfl

/-- C4: if the store handle is missing, the history read raises, or the chat
has no stored history, the assembled context is empty and the pipeline still
proceeds to exactly one generation call, submitting the forwarded text with
no context. -/
theorem empty_history_proceeds_with_empty_context (env : Env) (store0 : Store)
    (u : Update) (bu : String) (bid : Nat) (msg : MessageData)
    (rawText : String)
    (hm : u.message = some msg) (ht : msg.text = some rawText)
    (hne : rawText ≠ "")
    (hg : gateOfMsg u.chat_type rawText msg.entities msg.reply_to_from_user_id
            bu bid = true)
    (hempty : env.firebase_init = false ∨ env.read_ok = false ∨
      getChat store0 (toString u.chat_id) = []) :
    (handle_message env store0 u bu bid).genCalls
      = [([], forwardedText u.chat_type rawText bu)] := by
  obtain ⟨ct, ci, ui, om⟩ := u
  simp only at hm hg hempty
  subst hm
  obtain ⟨otx, ents, rto, mid⟩ := msg
  simp only at ht hg
  subst ht
  simp only [handle_message, if_neg hne, hg, Bool.not_true, Bool.false_eq_true,
    if_false]
  have hctx :
      (if env.firebase_init && env.read_ok then
        buildContext
          (getChat
            (if env.firebase_init && env.inbox_ok then
              pushInbox store0 ui ci mid (forwardedText ct rawText bu)
            else store0)
            (toString ci))
       else []) = ([] : List CtxEntry) := by
    rcases hempty with h | h | h
    · simp [h]
    · simp [h]
    · have hg0 :
          getChat
            (if (env.firebase_init && env.inbox_ok) = true then
              pushInbox store0 ui ci mid (forwardedText ct rawText bu)
            else store0)
            (toString ci) = [] := by
        split
        · rw [getChat_pushInbox]; exact h
        · exact h
      split
      · rw [hg0]; rfl
      · rfl
  rw [hctx]
  by_cases hgen : env.gen_ok <;> simp [hgen]

/-- Witness for C4: an empty store on a concrete private-chat message leads
to a single generation call with empty context. -/
theorem empty_history_proceeds_with_empty_context_witness :
    getChat storeEmpty (toString updPrivateHello.chat_id) = [] ∧
    (handle_message envHappy storeEmpty updPrivateHello "bot" 9).genCalls
      = [([], forwardedText updPrivateHello.chat_type " hello " "bot")] :=
  ⟨by decide,
    empty_history_proceeds_with_empty_context envHappy storeEmpty
      updPrivateHello "bot" 9 _ _ rfl rfl (by decide) (by decide)
      (Or.inr (Or.inr (by decide)))⟩

/-- C9: a group or supergroup message carrying neither a matching bot mention
nor a reply to the bot is a terminal no-op: the handler returns with the store
untouched, nothing sent, no generation call, and no store access attempted. -/
theorem gated_out_group_message_is_noop (env : Env) (store0 : Store)
    (u : Update) (bu : String) (bid : Nat) (msg : MessageData)
    (rawText : String)
    (hm : u.message = some msg) (ht : msg.text = some rawText)
    (hne : rawText ≠ "")
    (hgroup : u.chat_type = "group" ∨ u.chat_type = "supergroup")
    (hnoment : ∀ e ∈ msg.entities, ¬(e.etype = "mention" ∧
        sliceChars rawText e.offset e.length = "@" ++ bu))
    (hnoreply : msg.reply_to_from_user_id ≠ some bid) :
    handle_message env store0 u bu bid = emptyResult store0 := by
  have hnp : u.chat_type ≠ "private" := by
    rcases hgroup with h | h <;> simp [h]
  have hgate : gateOfMsg u.chat_type rawText msg.entities
      msg.reply_to_from_user_id bu bid = false := by
    simp only [gateOfMsg, if_neg hnp, if_pos hgroup, Bool.or_eq_false_iff]
    constructor
    · simp only [mentionHit, List.any_eq_false]
      intro e he
      simp only [Bool.and_eq_true, beq_iff_eq, not_and]
      intro h1 h2
      exact hnoment e he ⟨h1, h2⟩
    · cases hr : msg.reply_to_from_user_id with
      | none => rfl
      | some fid =>
        simp only [beq_eq_false_iff_ne, ne_eq]
        intro h
        exact hnoreply (hr.trans (congrArg some h))
  obtain ⟨ct, ci, ui, om⟩ := u
  simp only at hm hgate
  subst hm
  obtain ⟨otx, ents, rto, mid⟩ := msg
  simp only at ht hgate
  subst ht
  simp [handle_message, if_neg hne, hgate]

/-- Fixture: a plain group-chat message with no entities and no reply. -/
def updGroupPlain : Update := ⟨"group", 42, 7, some ⟨some "hello", [], none, 1⟩⟩

/-- Witness for C9: a concrete plain group message produces the no-op
result. -/
theorem gated_out_group_message_is_noop_witness :
    handle_message envHappy storeEmpty updGroupPlain "bot" 9
      = emptyResult storeEmpty :=
  gated_out_group_message_is_noop envHappy storeEmpty updGroupPlain "bot" 9
    _ _ rfl rfl (by decide) (Or.inl rfl) (by decide) (by decide)

/-- C7: after a successful generation, append failures never block the reply:
whenever the send succeeds the generated text is delivered whatever the two
append outcomes were; if the user append succeeds and the bot append fails,
the chat path keeps exactly the lone user turn and the failure is logged; if
the user append itself fails, the chat histories are untouched and the
failure is logged. -/
theorem append_failures_logged_reply_still_sent (env : Env) (store0 : Store)
    (u : Update) (bu : String) (bid : Nat) (msg : MessageData)
    (rawText : String)
    (hm : u.message = some msg) (ht : msg.text = some rawText)
    (hne : rawText ≠ "")
    (hg : gateOfMsg u.chat_type rawText msg.entities msg.reply_to_from_user_id
            bu bid = true)
    (hgen : env.gen_ok = true) :
    (env.send_ok = true →
      (handle_message env store0 u bu bid).sent = [env.gen_text]) ∧
    (env.firebase_init = true → env.user_append_ok = true →
     env.bot_append_ok = false →
      (∃ tsU, getChat (handle_message env store0 u bu bid).store
          (toString u.chat_id)
        = getChat store0 (toString u.chat_id) ++
            [⟨"user", forwardedText u.chat_type rawText bu, tsU⟩]) ∧
      "history_write" ∈ (handle_message env store0 u bu bid).errorsLogged) ∧
    (env.firebase_init = true → env.user_append_ok = false →
      (handle_message env store0 u bu bid).store.chats = store0.chats ∧
      "history_write" ∈ (handle_message env store0 u bu bid).errorsLogged) := by
  obtain ⟨ct, ci, ui, om⟩ := u
  simp only at hm hg
  subst hm
  obtain ⟨otx, ents, rto, mid⟩ := msg
  simp only at ht hg
  subst ht
  simp only [handle_message, if_neg hne, hg, Bool.not_true, Bool.false_eq_true,
    if_false, hgen, if_true]
  refine ⟨fun hs => by simp [hs], fun hinit hua hba => ?_, fun hinit hua => ?_⟩
  · constructor
    · by_cases hio : env.inbox_ok
      · refine ⟨store0.now + 1, ?_⟩
        simp only [hinit, hua, hba, hio, Bool.and_self, Bool.true_and,
          Bool.false_eq_true, if_true, if_false]
        rw [getChat_pushTurn_self, getChat_pushInbox]
        simp [pushInbox]
      · refine ⟨store0.now, ?_⟩
        simp only [hinit, hua, hba, hio, Bool.and_self, Bool.true_and,
          Bool.and_false, Bool.false_eq_true, if_true, if_false]
        rw [getChat_pushTurn_self]
    · simp [hinit, hua, hba]
  · constructor
    · by_cases hio : env.inbox_ok <;> simp [hinit, hua, hio, pushInbox]
    · simp [hinit, hua]

/-- Fixture: the happy-path environment except that the second (bot-turn)
history append fails. -/
def envBotAppendFails : Env := { envHappy with bot_append_ok := false }

/-- Witness for C7: on a concrete message with the bot append failing, the
reply is still delivered, the lone user turn is stored, and the failure is
logged. -/
theorem append_failures_logged_reply_still_sent_witness :
    (handle_message envBotAppendFails storeEmpty updPrivateHello "bot" 9).sent
      = [envBotAppendFails.gen_text] ∧
    (∃ tsU, getChat (handle_message envBotAppendFails storeEmpty updPrivateHello
          "bot" 9).store (toString updPrivateHello.chat_id)
      = getChat storeEmpty (toString updPrivateHello.chat_id) ++
          [⟨"user", forwardedText updPrivateHello.chat_type " hello " "bot", tsU⟩]) ∧
    "history_write" ∈ (handle_message envBotAppendFails storeEmpty
        updPrivateHello "bot" 9).errorsLogged := by
  have h := append_failures_logged_reply_still_sent envBotAppendFails storeEmpty
    updPrivateHello "bot" 9 _ _ rfl rfl (by decide) (by decide) rfl
  exact ⟨h.1 rfl, (h.2.1 rfl rfl rfl).1, (h.2.1 rfl rfl rfl).2⟩

/-- C8: when a non-private chat's message contains the bot-mention substring,
the text every downstream consumer sees is the stripped text with all mention
occurrences removed: the single generation call submits it, a successful
inbox write logs it, and a successful user-turn append stores it. -/
theorem mention_stripped_before_forwarding (env : Env) (store0 : Store)
    (u : Update) (bu : String) (bid : Nat) (msg : MessageData)
    (rawText : String)
    (hm : u.message = some msg) (ht : msg.text = some rawText)
    (hne : rawText ≠ "")
    (hg : gateOfMsg u.chat_type rawText msg.entities msg.reply_to_from_user_id
            bu bid = true)
    (hnp : u.chat_type ≠ "private")
    (hc : pyContains (pyStrip rawText) ("@" ++ bu) = true) :
    forwardedText u.chat_type rawText bu
      = pyStrip (pyReplace (pyStrip rawText) ("@" ++ bu) "") ∧
    (handle_message env store0 u bu bid).genCalls.map Prod.snd
      = [forwardedText u.chat_type rawText bu] ∧
    (env.firebase_init = true → env.inbox_ok = true →
      ∃ ts, (handle_message env store0 u bu bid).store.inbox_logs
        = store0.inbox_logs ++
            [⟨u.user_id, u.chat_id, msg.message_id,
              forwardedText u.chat_type rawText bu, ts⟩]) ∧
    (env.firebase_init = true → env.gen_ok = true → env.user_append_ok = true →
      ∃ ts rest, getChat (handle_message env store0 u bu bid).store
          (toString u.chat_id)
        = getChat store0 (toString u.chat_id) ++
            ⟨"user", forwardedText u.chat_type rawText bu, ts⟩ :: rest) := by
  obtain ⟨ct, ci, ui, om⟩ := u
  simp only at hm hg hnp
  subst hm
  obtain ⟨otx, ents, rto, mid⟩ := msg
  simp only at ht hg
  subst ht
  refine ⟨by simp [forwardedText, hnp, hc], ?_, ?_, ?_⟩ <;>
    simp only [handle_message, if_neg hne, hg, Bool.not_true,
      Bool.false_eq_true, if_false]
  · by_cases hgen : env.gen_ok <;> simp [hgen]
  · intro hinit hio
    simp only [hinit, hio, Bool.and_self, if_true, Bool.true_and]
    refine ⟨store0.now, ?_⟩
    by_cases hgen : env.gen_ok <;>
      by_cases hua : env.user_append_ok <;>
        by_cases hba : env.bot_append_ok <;>
          simp [hgen, hua, hba, pushTurn, pushInbox]
  · intro hinit hgen hua
    simp only [hinit, hgen, hua, Bool.true_and, if_true]
    by_cases hio : env.inbox_ok <;> by_cases hba : env.bot_append_ok <;>
      simp only [hio, hba, if_true, if_false, Bool.false_eq_true] <;>
      [refine ⟨store0.now + 1, [⟨"bot", env.gen_text, store0.now + 2⟩], ?_⟩;
       refine ⟨store0.now + 1, [], ?_⟩;
       refine ⟨store0.now, [⟨"bot", env.gen_text, store0.now + 1⟩], ?_⟩;
       refine ⟨store0.now, [], ?_⟩] <;>
      simp [getChat_pushTurn_self, pushTurn, pushInbox, getChat, chatsGet,
        chatsGet_chatsAppend_self]

/-- Witness for C8: the scenario message `@bot hello there` in a group chat
is forwarded as `hello there` to the generation call, the inbox log, and the
stored user turn. -/
theorem mention_stripped_before_forwarding_witness :
    forwardedText "group" "@bot hello there" "bot" = "hello there" ∧
    (handle_message envHappy storeEmpty updGroupMention "bot" 9).genCalls.map
        Prod.snd
      = [forwardedText "group" "@bot hello there" "bot"] ∧
    (∃ ts, (handle_message envHappy storeEmpty updGroupMention "bot" 9).store.inbox_logs
      = storeEmpty.inbox_logs ++
          [⟨updGroupMention.user_id, updGroupMention.chat_id, 1,
            forwardedText "group" "@bot hello there" "bot", ts⟩]) ∧
    (∃ ts rest, getChat (handle_message envHappy storeEmpty updGroupMention
          "bot" 9).store (toString updGroupMention.chat_id)
      = getChat storeEmpty (toString updGroupMention.chat_id) ++
          ⟨"user", forwardedText "group" "@bot hello there" "bot", ts⟩ :: rest) := by
  have h := mention_stripped_before_forwarding envHappy storeEmpty
    updGroupMention "bot" 9 _ _ rfl rfl (by decide) (by decide) (by decide)
    (by decide)
  exact ⟨by decide, h.2.1, h.2.2.1 rfl rfl, h.2.2.2 rfl rfl rfl⟩

/-- C10: when generation succeeds, both turns are recorded, but sending the
reply raises, the handler falls into the same exception branch and sends the
fixed apology — while the chat path has still gained the two new Turns. -/
theorem send_failure_apology_after_recording (env : Env) (store0 : Store)
    (u : Update) (bu : String) (bid : Nat) (msg : MessageData)
    (rawText : String)
    (hm : u.message = some msg) (ht : msg.text = some rawText)
    (hne : rawText ≠ "")
    (hg : gateOfMsg u.chat_type rawText msg.entities msg.reply_to_from_user_id
            bu bid = true)
    (hinit : env.firebase_init = true) (hgen : env.gen_ok = true)
    (hua : env.user_append_ok = true) (hba : env.bot_append_ok = true)
    (hsend : env.send_ok = false) :
    (handle_message env store0 u bu bid).sent = [apologyText] ∧
    ∃ tsU tsB : Nat,
      getChat (handle_message env store0 u bu bid).store (toString u.chat_id)
        = getChat store0 (toString u.chat_id) ++
            [⟨"user", forwardedText u.chat_type rawText bu, tsU⟩,
             ⟨"bot", env.gen_text, tsB⟩] ∧
      tsU ≤ tsB := by
  constructor
  · obtain ⟨ct, ci, ui, om⟩ := u
    simp only at hm hg
    subst hm
    obtain ⟨otx, ents, rto, mid⟩ := msg
    simp only at ht hg
    subst ht
    simp [handle_message, if_neg hne, hg, hgen, hsend]
  · obtain ⟨tsU, tsB, h1, h2, -⟩ := handle_success_getChat env store0 u bu bid
      msg rawText hm ht hne hg hinit hgen hua hba
    exact ⟨tsU, tsB, h1, h2⟩

/-- Fixture: the happy-path environment except that sending the generated
reply raises. -/
def envSendFails : Env := { envHappy with send_ok := false }

/-- Witness for C10: on a concrete message with the send failing, the apology
is delivered and the two turns are nevertheless stored. -/
theorem send_failure_apology_after_recording_witness :
    (handle_message envSendFails storeEmpty updPrivateHello "bot" 9).sent
      = [apologyText] ∧
    ∃ tsU tsB : Nat,
      getChat (handle_message envSendFails storeEmpty updPrivateHello
          "bot" 9).store (toString updPrivateHello.chat_id)
        = getChat storeEmpty (toString updPrivateHello.chat_id) ++
            [⟨"user", forwardedText updPrivateHello.chat_type " hello " "bot", tsU⟩,
             ⟨"bot", envSendFails.gen_text, tsB⟩] ∧
      tsU ≤ tsB :=
  send_failure_apology_after_recording envSendFails storeEmpty updPrivateHello
    "bot" 9 _ _ rfl rfl (by decide) (by decide) rfl rfl rfl rfl rfl

end HkBot
